import Mathlib

/-
Verification of nash_executor.py: a CLI utility that maps six optional
string fields into a Notion page-creation request.

The embedding models Python values flowing through the program as a `Json`
inductive (json.loads output, dict payloads), observable behaviour as a
trace of `Event`s (prints, the single HTTP POST, interactive prompts), and
process termination as an `Outcome` (sys.exit code or an unhandled Python
exception). Each Python function is translated to a Lean definition of the
same name.
-/

namespace NashExecutor

/-- JSON values as produced by Python json.loads, also used for the
request payloads the program builds (Python dicts and lists of dicts). -/
inductive Json where
  | null
  | bool (b : Bool)
  | num (n : Int)
  | str (s : String)
  | arr (xs : List Json)
  | obj (kvs : List (String × Json))

/-- Observable side effects of one program run, in order. Structured
print events model the f-string and multi-argument prints of the source:
`printStatus c` models `print(f"Code HTTP : c")`, `printDetails j` models
`print("Détails :", j)`, `printRaw t` models `print("Réponse brute :", t)`,
`printSuccess pid` models the success line ending in the page id, and
`promptInput msg` models `input(msg)`. -/
inductive Event where
  | printLine (s : String)
  | printStatus (code : Nat)
  | printDetails (body : Json)
  | printRaw (text : String)
  | printSuccess (pageId : Json)
  | promptInput (msg : String)
  | httpPost (url : String) (headers : List (String × Json)) (payload : Json)

/-- How the whole process ends: sys.exit code (normal return of main is
exit 0) or an unhandled Python exception. -/
inductive Outcome where
  | exit (code : Nat)
  | exception (name : String)

/-- Result of create_nash_page: sys.exit, an unhandled exception, or a
normal return carrying the parsed API response. -/
inductive CreateOutcome where
  | exit (code : Nat)
  | exception (name : String)
  | returns (data : Json)

/-- The process environment after load_dotenv: values of NOTION_TOKEN and
NOTION_DATABASE_ID as os.getenv sees them (none when unset). -/
structure Env where
  notion_token : Option String
  notion_database_id : Option String

/-- The single HTTP response the world supplies to requests.post:
status code, the result of resp.json() (none when the body is not valid
JSON, in which case resp.json() raises), and resp.text. -/
structure HttpResponse where
  status_code : Nat
  jsonBody : Option Json
  text : String

/-- External world of one run: environment, the behaviour of json.loads
on the argument string, the stream of interactive input() answers, and
the HTTP response. -/
structure World where
  env : Env
  parse : String → Option Json
  inputs : Nat → String
  resp : HttpResponse

/-- Python truthiness on JSON-representable values. -/
def pyTruthy : Json → Bool
  | .null => false
  | .bool b => b
  | .num n => decide (n ≠ 0)
  | .str s => decide (s ≠ "")
  | .arr xs => !xs.isEmpty
  | .obj kvs => !kvs.isEmpty

/-- Python `a or b` on JSON-representable values. -/
def pyOr (a b : Json) : Json := if pyTruthy a then a else b

/-- First-match association-list lookup; parsed JSON objects and the
literal dicts built by the program have unique keys, so this agrees with
Python dict lookup. -/
def dictGet : List (String × Json) → String → Option Json
  | [], _ => none
  | kv :: kvs, k => if kv.1 == k then some kv.2 else dictGet kvs k

/-- Python dict.get with default None. -/
def pyDictGet (kvs : List (String × Json)) (k : String) : Json :=
  (dictGet kvs k).getD Json.null

/-- Whitespace stripped by Python str.strip (ASCII whitespace; Python
also strips further Unicode space characters, which no claim involves). -/
def isPySpace (c : Char) : Bool :=
  c == ' ' || c == '\t' || c == '\n' || c == '\r' ||
    c == Char.ofNat 11 || c == Char.ofNat 12

/-- Python str.strip(): remove leading and trailing whitespace. -/
def pyStrip (s : String) : String :=
  String.mk (((s.toList.dropWhile isPySpace).reverse.dropWhile isPySpace).reverse)

/-- The four guidance lines printed by load_env when configuration is
missing. -/
def envErrorPrints : List Event :=
  [Event.printLine "❌ ERREUR : NOTION_TOKEN ou NOTION_DATABASE_ID manquants.",
   Event.printLine "  → Crée un fichier .env avec :",
   Event.printLine "      NOTION_TOKEN=ton_token_secret_notion",
   Event.printLine "      NOTION_DATABASE_ID=ton_id_de_base"]

/-- load_env: read NOTION_TOKEN and NOTION_DATABASE_ID; when either is
missing or empty (Python falsy), print guidance and sys.exit(1), modelled
as result none; otherwise return the pair. -/
def load_env (env : Env) : List Event × Option (String × String) :=
  match env.notion_token, env.notion_database_id with
  | some t, some d =>
      if t = "" ∨ d = "" then (envErrorPrints, none) else ([], some (t, d))
  | _, _ => (envErrorPrints, none)

/-- build_properties: construct the properties dict. The title column
"Source" always receives `title or (source or "Sans titre")`; the three
Select columns and the rich-text column are added only when the
corresponding argument is truthy. -/
def build_properties (title source type_detected categorie statut contenu : Json) :
    List (String × Json) :=
  [("Source", Json.obj [("title", Json.arr [Json.obj [("text", Json.obj
      [("content", pyOr title (pyOr source (Json.str "Sans titre")))])]])])]
  ++ (if pyTruthy type_detected then
        [("Type détecté", Json.obj [("select", Json.obj [("name", type_detected)])])]
      else [])
  ++ (if pyTruthy categorie then
        [("Catégorie suggérée", Json.obj [("select", Json.obj [("name", categorie)])])]
      else [])
  ++ (if pyTruthy statut then
        [("Statut", Json.obj [("select", Json.obj [("name", statut)])])]
      else [])
  ++ (if pyTruthy contenu then
        [("Contenu", Json.obj [("rich_text", Json.arr [Json.obj [("text", Json.obj
            [("content", contenu)])]])])]
      else [])

/-- The fixed endpoint URL. -/
def notionUrl : String := "https://api.notion.com/v1/pages"

/-- The part of create_nash_page after requests.post returns: branch on
the status code. In the 2xx branch resp.json() is unguarded (raises on a
non-JSON body) and data.get raises AttributeError when the body is not an
object; in the error branch the resp.json() call is wrapped in
try/except, so that branch never raises. -/
def response_branch (resp : HttpResponse) : List Event × CreateOutcome :=
  if 200 ≤ resp.status_code ∧ resp.status_code < 300 then
    match resp.jsonBody with
    | none => ([], CreateOutcome.exception "JSONDecodeError")
    | some data =>
      match data with
      | Json.obj kvs =>
          let page_id := (dictGet kvs "id").getD (Json.str "inconnu")
          ([Event.printSuccess page_id], CreateOutcome.returns (Json.obj kvs))
      | _ => ([], CreateOutcome.exception "AttributeError")
  else
    ([Event.printLine "❌ Erreur lors de la création de la page.",
      Event.printStatus resp.status_code]
        ++ (match resp.jsonBody with
            | some j => [Event.printDetails j]
            | none => [Event.printRaw resp.text]),
     CreateOutcome.exit 1)

/-- create_nash_page: load configuration, build headers and payload, POST
once, then handle the response (response_branch). -/
def create_nash_page (env : Env) (resp : HttpResponse)
    (title source type_detected categorie statut contenu : Json) :
    List Event × CreateOutcome :=
  match load_env env with
  | (es, none) => (es, CreateOutcome.exit 1)
  | (es, some (notion_token, database_id)) =>
    let headers : List (String × Json) :=
      [("Authorization", Json.str ("Bearer " ++ notion_token)),
       ("Notion-Version", Json.str "2022-06-28"),
       ("Content-Type", Json.str "application/json")]
    let properties := build_properties title source type_detected categorie statut contenu
    let payload := Json.obj
      [("parent", Json.obj [("database_id", Json.str database_id)]),
       ("properties", Json.obj properties)]
    let tail := response_branch resp
    (es ++ Event.printLine "📤 Envoi vers Notion..." ::
        Event.httpPost notionUrl headers payload :: tail.1,
     tail.2)

/-- Normal return of main means the interpreter exits 0; sys.exit and
unhandled exceptions pass through. -/
def createToOutcome : CreateOutcome → Outcome
  | CreateOutcome.exit c => Outcome.exit c
  | CreateOutcome.exception e => Outcome.exception e
  | CreateOutcome.returns _ => Outcome.exit 0

/-- The six values main extracts from the parsed JSON object (or from the
interactive answers). -/
structure Fields where
  title : Json
  source : Json
  type_detected : Json
  categorie : Json
  statut : Json
  contenu : Json

/-- Field extraction of the JSON-argument branch of main:
`data.get("title") or "Sans titre"` and plain `data.get` for the rest. -/
def json_mode_fields (kvs : List (String × Json)) : Fields :=
  { title := pyOr (pyDictGet kvs "title") (Json.str "Sans titre"),
    source := pyDictGet kvs "source",
    type_detected := pyDictGet kvs "type_detected",
    categorie := pyDictGet kvs "categorie",
    statut := pyDictGet kvs "statut",
    contenu := pyDictGet kvs "contenu" }

/-- Field acquisition of the interactive branch of main:
`input(...).strip() or "Sans titre"` for the title and
`input(...).strip() or None` for the five optional fields. -/
def interactive_fields (inputs : Nat → String) : Fields :=
  { title := Json.str (if pyStrip (inputs 0) = "" then "Sans titre" else pyStrip (inputs 0)),
    source := if pyStrip (inputs 1) = "" then Json.null else Json.str (pyStrip (inputs 1)),
    type_detected := if pyStrip (inputs 2) = "" then Json.null else Json.str (pyStrip (inputs 2)),
    categorie := if pyStrip (inputs 3) = "" then Json.null else Json.str (pyStrip (inputs 3)),
    statut := if pyStrip (inputs 4) = "" then Json.null else Json.str (pyStrip (inputs 4)),
    contenu := if pyStrip (inputs 5) = "" then Json.null else Json.str (pyStrip (inputs 5)) }

/-- The interactive-mode banner line. -/
def interactiveBanner : String :=
  "🧠 Création d\x27une nouvelle entrée Nash Inbox (mode interactif)"

/-- The interactive branch of main: banner, six prompts, then
create_nash_page on the collected fields. -/
def interactive_main (w : World) : List Event × Outcome :=
  let f := interactive_fields w.inputs
  let es := [Event.printLine interactiveBanner,
             Event.promptInput "Titre (obligatoire) : ",
             Event.promptInput "Source (optionnel) : ",
             Event.promptInput "Type détecté (optionnel) : ",
             Event.promptInput "Catégorie suggérée (optionnel) : ",
             Event.promptInput "Statut (optionnel, ex : À traiter) : ",
             Event.promptInput "Contenu (texte libre, optionnel) : "]
  let r := create_nash_page w.env w.resp f.title f.source f.type_detected f.categorie f.statut f.contenu
  (es ++ r.1, createToOutcome r.2)

/-- The example line printed after "Argument JSON invalide". -/
def usageExample : String :=
  "python nash_executor.py \x27\x7b\"title\":\"Test\",\"source\":\"Mail\",\"type_detected\":\"Email\",\"categorie\":\"Pro\",\"statut\":\"À traiter\",\"contenu\":\"Texte...\"\x7d\x27"

/-- main: JSON-argument mode exactly when len(sys.argv) == 2, with the
json.JSONDecodeError handler printing the usage example and exiting 1;
a parse result that is not a dict makes the first data.get raise
AttributeError. Any other argument count falls into interactive mode. -/
def run_main (argv : List String) (w : World) : List Event × Outcome :=
  if argv.length = 2 then
    match w.parse (argv.getD 1 "") with
    | none =>
        ([Event.printLine "❌ Argument JSON invalide. Exemple :",
          Event.printLine usageExample], Outcome.exit 1)
    | some (Json.obj kvs) =>
        let f := json_mode_fields kvs
        let r := create_nash_page w.env w.resp f.title f.source f.type_detected f.categorie f.statut f.contenu
        (r.1, createToOutcome r.2)
    | some _ => ([], Outcome.exception "AttributeError")
  else
    interactive_main w

/-- Whether an event is the HTTP POST (network activity). -/
def isHttpPost : Event → Bool
  | Event.httpPost _ _ _ => true
  | _ => false

/-- Whether a trace contains any network activity. -/
def hasPost (es : List Event) : Bool := es.any isHttpPost

/-- The payload of the first HTTP POST in a trace, if any. -/
def postedPayload : List Event → Option Json
  | [] => none
  | Event.httpPost _ _ p :: _ => some p
  | _ :: es => postedPayload es

/-- Navigate a properties dict to the text content of the title column
"Source", when it is a string. -/
def titleContentOfProps (props : List (String × Json)) : Option String :=
  match dictGet props "Source" with
  | some (Json.obj kvs) =>
    match dictGet kvs "title" with
    | some (Json.arr (Json.obj kvs2 :: _)) =>
      match dictGet kvs2 "text" with
      | some (Json.obj kvs3) =>
        match dictGet kvs3 "content" with
        | some (Json.str s) => some s
        | _ => none
      | _ => none
    | _ => none
  | _ => none

/-- Navigate a request payload to the title text content. -/
def payloadTitleContent (payload : Json) : Option String :=
  match payload with
  | Json.obj kvs =>
    match dictGet kvs "properties" with
    | some (Json.obj props) => titleContentOfProps props
    | _ => none
  | _ => none

/-- The title text content sent over the wire in a trace, if any POST
happened. -/
def sentTitleContent (es : List Event) : Option String :=
  match postedPayload es with
  | some p => payloadTitleContent p
  | none => none

/-- Fuel-bounded search for a string occurring anywhere inside a JSON
value (fuel bounds the nesting depth inspected). -/
def jsonHasStrFuel : Nat → String → Json → Bool
  | 0, _, _ => false
  | _ + 1, s, Json.str t => t == s
  | n + 1, s, Json.arr xs => xs.any (jsonHasStrFuel n s)
  | n + 1, s, Json.obj kvs => kvs.any (fun kv => jsonHasStrFuel n s kv.2)
  | _ + 1, _, _ => false

/-- Coerce an optional string input (absent = Python None) to the JSON
value main would pass. -/
def optJ : Option String → Json
  | none => Json.null
  | some s => Json.str s

/-- The string carried by a JSON string value, if it is one. -/
def strContent : Json → Option String
  | Json.str s => some s
  | _ => none

/-- A well-configured environment for concrete runs. -/
def goodEnv : Env := { notion_token := some "tok", notion_database_id := some "db" }

/-- A successful creation response carrying a page id. -/
def respCreated : HttpResponse :=
  { status_code := 200, jsonBody := some (Json.obj [("id", Json.str "page-id-123")]), text := "" }

/-- The literal argument string of the title-defaulting example. -/
def srcMailArg : String := "\x7b\"source\":\"Mail\"\x7d"

/-- Concrete world for the JSON-argument run on the source-only input. -/
def wSrcMail : World :=
  { env := goodEnv,
    parse := fun a =>
      if a = srcMailArg then some (Json.obj [("source", Json.str "Mail")]) else none,
    inputs := fun _ => "",
    resp := respCreated }

/-- Concrete world whose argument never parses as JSON. -/
def wBadJson : World :=
  { env := goodEnv, parse := fun _ => none, inputs := fun _ => "", resp := respCreated }

/-- Concrete world whose argument parses to the JSON number 42. -/
def wNumArg : World :=
  { env := goodEnv, parse := fun _ => some (Json.num 42), inputs := fun _ => "", resp := respCreated }

/-- Concrete world with an empty JSON-object argument and a 2xx response
whose body is a JSON array rather than an object. -/
def wArrBody : World :=
  { env := goodEnv,
    parse := fun a => if a = "\x7b\x7d" then some (Json.obj []) else none,
    inputs := fun _ => "",
    resp := { status_code := 200, jsonBody := some (Json.arr []), text := "corps" } }

/-- Concrete world with an empty JSON-object argument and a 201 response
whose body is a JSON object carrying an id. -/
def wOkBody : World :=
  { env := goodEnv,
    parse := fun a => if a = "\x7b\x7d" then some (Json.obj []) else none,
    inputs := fun _ => "",
    resp := { status_code := 201, jsonBody := some (Json.obj [("id", Json.str "abc")]), text := "" } }

/-- A 401 response with a JSON error body. -/
def resp401 : HttpResponse :=
  { status_code := 401,
    jsonBody := some (Json.obj [("message", Json.str "API token is invalid.")]),
    text := "texte brut" }

/-- Python `x or y` keeps a truthy left operand. -/
theorem pyOr_sansTitre (x : Json) : pyOr (Json.str "Sans titre") x = Json.str "Sans titre" := rfl

/-- Python `x or y` yields y when x is falsy. -/
theorem pyOr_of_falsy (a b : Json) (h : pyTruthy a = false) : pyOr a b = b := by
  simp [pyOr, h]

/-- Lookup of the Type column in the built properties. -/
theorem dictGet_build_td (ti so td ca st co : Json) :
    dictGet (build_properties ti so td ca st co) "Type détecté" =
      if pyTruthy td then some (Json.obj [("select", Json.obj [("name", td)])]) else none := by
  by_cases htd : pyTruthy td = true <;>
  by_cases hca : pyTruthy ca = true <;>
  by_cases hst : pyTruthy st = true <;>
  by_cases hco : pyTruthy co = true <;>
    simp [build_properties, dictGet, htd, hca, hst, hco, beq_iff_eq]

/-- Lookup of the Category column in the built properties. -/
theorem dictGet_build_ca (ti so td ca st co : Json) :
    dictGet (build_properties ti so td ca st co) "Catégorie suggérée" =
      if pyTruthy ca then some (Json.obj [("select", Json.obj [("name", ca)])]) else none := by
  by_cases htd : pyTruthy td = true <;>
  by_cases hca : pyTruthy ca = true <;>
  by_cases hst : pyTruthy st = true <;>
  by_cases hco : pyTruthy co = true <;>
    simp [build_properties, dictGet, htd, hca, hst, hco, beq_iff_eq]

/-- Lookup of the Status column in the built properties. -/
theorem dictGet_build_st (ti so td ca st co : Json) :
    dictGet (build_properties ti so td ca st co) "Statut" =
      if pyTruthy st then some (Json.obj [("select", Json.obj [("name", st)])]) else none := by
  by_cases htd : pyTruthy td = true <;>
  by_cases hca : pyTruthy ca = true <;>
  by_cases hst : pyTruthy st = true <;>
  by_cases hco : pyTruthy co = true <;>
    simp [build_properties, dictGet, htd, hca, hst, hco, beq_iff_eq]

/-- Lookup of the Content column in the built properties. -/
theorem dictGet_build_co (ti so td ca st co : Json) :
    dictGet (build_properties ti so td ca st co) "Contenu" =
      if pyTruthy co then
        some (Json.obj [("rich_text", Json.arr [Json.obj [("text", Json.obj
          [("content", co)])]])])
      else none := by
  by_cases htd : pyTruthy td = true <;>
  by_cases hca : pyTruthy ca = true <;>
  by_cases hst : pyTruthy st = true <;>
  by_cases hco : pyTruthy co = true <;>
    simp [build_properties, dictGet, htd, hca, hst, hco, beq_iff_eq]

/-- The keys of the built properties are always among the five column
names. -/
theorem build_properties_keys (ti so td ca st co : Json) :
    ∀ k ∈ (build_properties ti so td ca st co).map Prod.fst,
      k ∈ ["Source", "Type détecté", "Catégorie suggérée", "Statut", "Contenu"] := by
  by_cases htd : pyTruthy td = true <;>
  by_cases hca : pyTruthy ca = true <;>
  by_cases hst : pyTruthy st = true <;>
  by_cases hco : pyTruthy co = true <;>
    simp [build_properties, htd, hca, hst, hco]

/-- The title column of the built properties carries the Python
expression `title or (source or "Sans titre")`. -/
theorem titleContent_build (ti so td ca st co : Json) :
    titleContentOfProps (build_properties ti so td ca st co) =
      strContent (pyOr ti (pyOr so (Json.str "Sans titre"))) := by
  cases h : pyOr ti (pyOr so (Json.str "Sans titre")) <;>
    simp [build_properties, titleContentOfProps, dictGet, strContent, beq_iff_eq, h]

/-- With a well-formed configuration, the title content sent over the
wire is exactly the title content of the built properties. -/
theorem sentTitleContent_create (t d : String) (ht : t ≠ "") (hd : d ≠ "")
    (resp : HttpResponse) (ti so td ca st co : Json) :
    sentTitleContent
        (create_nash_page { notion_token := some t, notion_database_id := some d }
          resp ti so td ca st co).1 =
      titleContentOfProps (build_properties ti so td ca st co) := by
  simp only [create_nash_page, load_env]
  rw [if_neg (by simp [ht, hd])]
  simp [sentTitleContent, postedPayload, payloadTitleContent, dictGet, beq_iff_eq]

/-- With a well-formed configuration, create_nash_page prints the send
line, performs the single POST, and then behaves as response_branch. -/
theorem create_good (t d : String) (ht : t ≠ "") (hd : d ≠ "")
    (resp : HttpResponse) (ti so td ca st co : Json) :
    create_nash_page { notion_token := some t, notion_database_id := some d }
        resp ti so td ca st co =
      (Event.printLine "📤 Envoi vers Notion..." ::
        Event.httpPost notionUrl
          [("Authorization", Json.str ("Bearer " ++ t)),
           ("Notion-Version", Json.str "2022-06-28"),
           ("Content-Type", Json.str "application/json")]
          (Json.obj [("parent", Json.obj [("database_id", Json.str d)]),
                     ("properties", Json.obj (build_properties ti so td ca st co))]) ::
        (response_branch resp).1,
       (response_branch resp).2) := by
  simp only [create_nash_page, load_env]
  rw [if_neg (by simp [ht, hd])]
  rfl

/-- C1 counterexample: in JSON-argument mode on the input
having only source = "Mail", the title content actually sent is the
placeholder "Sans titre", not "Mail" as the claim states, because main
defaults the title before build_properties can fall back to source. -/
theorem C1_counterexample :
    sentTitleContent (run_main ["nash_executor.py", srcMailArg] wSrcMail).1 =
        some "Sans titre" ∧
    sentTitleContent (run_main ["nash_executor.py", srcMailArg] wSrcMail).1 ≠
        some "Mail" := by
  refine ⟨rfl, ?_⟩
  rw [show sentTitleContent (run_main ["nash_executor.py", srcMailArg] wSrcMail).1 =
        some "Sans titre" from rfl]
  simp

/-- C1 (amended): in JSON-argument mode, whenever the title key of the
input object is absent or empty, the title field content of the built
request is the placeholder "Sans titre" regardless of source (source is
never used as a title fallback in this mode). -/
theorem C1_amended_theorem (w : World) (p a t d : String) (kvs : List (String × Json))
    (hp : w.parse a = some (Json.obj kvs))
    (htitle : pyDictGet kvs "title" = Json.null ∨ pyDictGet kvs "title" = Json.str "")
    (henv : w.env = { notion_token := some t, notion_database_id := some d })
    (ht : t ≠ "") (hd : d ≠ "") :
    sentTitleContent (run_main [p, a] w).1 = some "Sans titre" := by
  have hfalsy : pyTruthy (pyDictGet kvs "title") = false := by
    rcases htitle with h | h <;> simp [h, pyTruthy]
  have hlen : ([p, a] : List String).length = 2 := rfl
  unfold run_main
  rw [if_pos hlen]
  have harg : ([p, a] : List String).getD 1 "" = a := rfl
  rw [harg, hp]
  dsimp only [json_mode_fields]
  rw [henv, sentTitleContent_create t d ht hd, titleContent_build,
    pyOr_of_falsy _ _ hfalsy, pyOr_sansTitre]
  rfl

/-- C1 witness: the amended statement at the concrete source-only
input. -/
theorem C1_witness :
    wSrcMail.parse srcMailArg = some (Json.obj [("source", Json.str "Mail")]) ∧
    sentTitleContent (run_main ["nash_executor.py", srcMailArg] wSrcMail).1 =
      some "Sans titre" :=
  ⟨rfl, C1_amended_theorem wSrcMail "nash_executor.py" srcMailArg "tok" "db"
    [("source", Json.str "Mail")] rfl (Or.inl rfl) rfl (by decide) (by decide)⟩

/-- C2 counterexample: on the full example input the built mapping has
exactly the five columns Source, Type, Category, Status, Content - only
four non-title fields, not five - and the non-empty source value "Mail"
appears nowhere in it, refuting that every present field appears with
exactly its given value. -/
theorem C2_counterexample :
    (build_properties (Json.str "Test") (Json.str "Mail") (Json.str "Email") (Json.str "Pro")
        (Json.str "À traiter") (Json.str "Texte...")).map Prod.fst =
      ["Source", "Type détecté", "Catégorie suggérée", "Statut", "Contenu"] ∧
    jsonHasStrFuel 10 "Mail"
        (Json.obj (build_properties (Json.str "Test") (Json.str "Mail") (Json.str "Email")
          (Json.str "Pro") (Json.str "À traiter") (Json.str "Texte..."))) = false :=
  ⟨rfl, rfl⟩

/-- C2 (amended): each of the four fields type_detected, categorie,
statut, contenu is omitted from the built mapping when absent or empty
and appears with exactly its value when non-empty; the source input has
no field of its own (it only serves as title fallback), every key is one
of the five fixed column names, and the full example yields a title
field containing "Test" with the four non-source fields present. -/
theorem C2_amended_theorem (title source td ca st co : Option String) :
    (dictGet (build_properties (optJ title) (optJ source) (optJ td) (optJ ca) (optJ st)
        (optJ co)) "Type détecté" =
      (match td with
       | some s => if s = "" then none
           else some (Json.obj [("select", Json.obj [("name", Json.str s)])])
       | none => none)) ∧
    (dictGet (build_properties (optJ title) (optJ source) (optJ td) (optJ ca) (optJ st)
        (optJ co)) "Catégorie suggérée" =
      (match ca with
       | some s => if s = "" then none
           else some (Json.obj [("select", Json.obj [("name", Json.str s)])])
       | none => none)) ∧
    (dictGet (build_properties (optJ title) (optJ source) (optJ td) (optJ ca) (optJ st)
        (optJ co)) "Statut" =
      (match st with
       | some s => if s = "" then none
           else some (Json.obj [("select", Json.obj [("name", Json.str s)])])
       | none => none)) ∧
    (dictGet (build_properties (optJ title) (optJ source) (optJ td) (optJ ca) (optJ st)
        (optJ co)) "Contenu" =
      (match co with
       | some s => if s = "" then none
           else some (Json.obj [("rich_text", Json.arr [Json.obj [("text", Json.obj
               [("content", Json.str s)])]])])
       | none => none)) ∧
    (∀ k ∈ (build_properties (optJ title) (optJ source) (optJ td) (optJ ca) (optJ st)
        (optJ co)).map Prod.fst,
      k ∈ ["Source", "Type détecté", "Catégorie suggérée", "Statut", "Contenu"]) ∧
    titleContentOfProps (build_properties (Json.str "Test") (Json.str "Mail")
        (Json.str "Email") (Json.str "Pro") (Json.str "À traiter") (Json.str "Texte...")) =
      some "Test" ∧
    (build_properties (Json.str "Test") (Json.str "Mail") (Json.str "Email") (Json.str "Pro")
        (Json.str "À traiter") (Json.str "Texte...")).map Prod.fst =
      ["Source", "Type détecté", "Catégorie suggérée", "Statut", "Contenu"] := by
  refine ⟨?_, ?_, ?_, ?_, build_properties_keys _ _ _ _ _ _, rfl, rfl⟩
  · rw [dictGet_build_td]
    rcases td with _ | s
    · simp [optJ, pyTruthy]
    · by_cases hs : s = "" <;> simp [optJ, pyTruthy, hs]
  · rw [dictGet_build_ca]
    rcases ca with _ | s
    · simp [optJ, pyTruthy]
    · by_cases hs : s = "" <;> simp [optJ, pyTruthy, hs]
  · rw [dictGet_build_st]
    rcases st with _ | s
    · simp [optJ, pyTruthy]
    · by_cases hs : s = "" <;> simp [optJ, pyTruthy, hs]
  · rw [dictGet_build_co]
    rcases co with _ | s
    · simp [optJ, pyTruthy]
    · by_cases hs : s = "" <;> simp [optJ, pyTruthy, hs]

/-- C3: for every combination of the six possibly-absent inputs the
built mapping always carries a title field whose content equals the
title if non-empty, else the source if non-empty, else the placeholder,
and that content is never empty; each of the four optional columns is
present exactly when its input is a non-empty string. -/
theorem C3_theorem (title source td ca st co : Option String) :
    (titleContentOfProps (build_properties (optJ title) (optJ source) (optJ td) (optJ ca)
        (optJ st) (optJ co)) =
      some (if title.getD "" ≠ "" then title.getD ""
            else if source.getD "" ≠ "" then source.getD "" else "Sans titre")) ∧
    (if title.getD "" ≠ "" then title.getD ""
     else if source.getD "" ≠ "" then source.getD "" else "Sans titre") ≠ "" ∧
    (dictGet (build_properties (optJ title) (optJ source) (optJ td) (optJ ca) (optJ st)
        (optJ co)) "Type détecté" ≠ none ↔ ∃ s, td = some s ∧ s ≠ "") ∧
    (dictGet (build_properties (optJ title) (optJ source) (optJ td) (optJ ca) (optJ st)
        (optJ co)) "Catégorie suggérée" ≠ none ↔ ∃ s, ca = some s ∧ s ≠ "") ∧
    (dictGet (build_properties (optJ title) (optJ source) (optJ td) (optJ ca) (optJ st)
        (optJ co)) "Statut" ≠ none ↔ ∃ s, st = some s ∧ s ≠ "") ∧
    (dictGet (build_properties (optJ title) (optJ source) (optJ td) (optJ ca) (optJ st)
        (optJ co)) "Contenu" ≠ none ↔ ∃ s, co = some s ∧ s ≠ "") := by
  refine ⟨?_, ?_, ?_, ?_, ?_, ?_⟩
  · rw [titleContent_build]
    rcases title with _ | t <;> rcases source with _ | s
    · simp [optJ, pyOr, pyTruthy, strContent]
    · by_cases hs : s = "" <;> simp [optJ, pyOr, pyTruthy, strContent, hs]
    · by_cases ht : t = "" <;> simp [optJ, pyOr, pyTruthy, strContent, ht]
    · by_cases ht : t = "" <;> by_cases hs : s = "" <;>
        simp [optJ, pyOr, pyTruthy, strContent, ht, hs]
  · split_ifs with h1 h2
    · exact h1
    · exact h2
    · decide
  · rw [dictGet_build_td]
    rcases td with _ | s
    · simp [optJ, pyTruthy]
    · by_cases hs : s = "" <;> simp [optJ, pyTruthy, hs]
  · rw [dictGet_build_ca]
    rcases ca with _ | s
    · simp [optJ, pyTruthy]
    · by_cases hs : s = "" <;> simp [optJ, pyTruthy, hs]
  · rw [dictGet_build_st]
    rcases st with _ | s
    · simp [optJ, pyTruthy]
    · by_cases hs : s = "" <;> simp [optJ, pyTruthy, hs]
  · rw [dictGet_build_co]
    rcases co with _ | s
    · simp [optJ, pyTruthy]
    · by_cases hs : s = "" <;> simp [optJ, pyTruthy, hs]

/-- C4: when the token or the database id is missing or empty, the run
consists of exactly the four guidance lines and sys.exit(1), with no
POST in the trace; when both are present and non-empty, load_env returns
the pair. -/
theorem C4_theorem (env : Env) (resp : HttpResponse) (ti so td ca st co : Json)
    (t d : String)
    (hmiss : env.notion_token = none ∨ env.notion_token = some "" ∨
             env.notion_database_id = none ∨ env.notion_database_id = some "")
    (ht : t ≠ "") (hd : d ≠ "") :
    create_nash_page env resp ti so td ca st co = (envErrorPrints, CreateOutcome.exit 1) ∧
    hasPost (create_nash_page env resp ti so td ca st co).1 = false ∧
    load_env env = (envErrorPrints, none) ∧
    load_env { notion_token := some t, notion_database_id := some d } = ([], some (t, d)) := by
  have hload : load_env env = (envErrorPrints, none) := by
    obtain ⟨tok, dbid⟩ := env
    cases tok <;> cases dbid <;> simp_all [load_env]
  have hcreate : create_nash_page env resp ti so td ca st co =
      (envErrorPrints, CreateOutcome.exit 1) := by
    simp [create_nash_page, hload]
  refine ⟨hcreate, ?_, hload, ?_⟩
  · rw [hcreate]
    rfl
  · simp [load_env, ht, hd]

/-- C4 witness: the guard at a concrete environment with the token
unset, and load_env at a concrete well-formed environment. -/
theorem C4_witness :
    create_nash_page { notion_token := none, notion_database_id := some "db" } respCreated
        Json.null Json.null Json.null Json.null Json.null Json.null =
      (envErrorPrints, CreateOutcome.exit 1) ∧
    load_env { notion_token := some "tok", notion_database_id := some "db" } =
      ([], some ("tok", "db")) := by
  have h := C4_theorem { notion_token := none, notion_database_id := some "db" } respCreated
    Json.null Json.null Json.null Json.null Json.null Json.null "tok" "db"
    (Or.inl rfl) (by decide) (by decide)
  exact ⟨h.1, h.2.2.2⟩

/-- C5: for every argument string that json.loads rejects, main prints
the usage example and exits 1, with no network activity in the trace. -/
theorem C5_theorem (w : World) (p a : String) (hp : w.parse a = none) :
    run_main [p, a] w =
      ([Event.printLine "❌ Argument JSON invalide. Exemple :",
        Event.printLine usageExample], Outcome.exit 1) ∧
    hasPost (run_main [p, a] w).1 = false := by
  have hlen : ([p, a] : List String).length = 2 := rfl
  have harg : ([p, a] : List String).getD 1 "" = a := rfl
  have hmain : run_main [p, a] w =
      ([Event.printLine "❌ Argument JSON invalide. Exemple :",
        Event.printLine usageExample], Outcome.exit 1) := by
    unfold run_main
    rw [if_pos hlen, harg, hp]
  refine ⟨hmain, ?_⟩
  rw [hmain]
  rfl

/-- C5 witness: a concrete run whose argument never parses. -/
theorem C5_witness :
    wBadJson.parse "not json" = none ∧
    hasPost (run_main ["nash_executor.py", "not json"] wBadJson).1 = false :=
  ⟨rfl, (C5_theorem wBadJson "nash_executor.py" "not json" rfl).2⟩

/-- C6: with a well-formed configuration, every non-2xx response makes
the client print the status code together with the parsed error body
(or the raw text when the body is not JSON) and exit 1 without an
unhandled exception, and a 2xx response never takes this error path. -/
theorem C6_theorem (t d : String) (resp : HttpResponse) (ti so td ca st co : Json)
    (ht : t ≠ "") (hd : d ≠ "") :
    (¬(200 ≤ resp.status_code ∧ resp.status_code < 300) →
      (create_nash_page { notion_token := some t, notion_database_id := some d } resp
          ti so td ca st co).2 = CreateOutcome.exit 1 ∧
      Event.printStatus resp.status_code ∈
        (create_nash_page { notion_token := some t, notion_database_id := some d } resp
          ti so td ca st co).1 ∧
      (∀ j, resp.jsonBody = some j → Event.printDetails j ∈
        (create_nash_page { notion_token := some t, notion_database_id := some d } resp
          ti so td ca st co).1) ∧
      (resp.jsonBody = none → Event.printRaw resp.text ∈
        (create_nash_page { notion_token := some t, notion_database_id := some d } resp
          ti so td ca st co).1)) ∧
    ((200 ≤ resp.status_code ∧ resp.status_code < 300) →
      (create_nash_page { notion_token := some t, notion_database_id := some d } resp
          ti so td ca st co).2 ≠ CreateOutcome.exit 1 ∧
      Event.printLine "❌ Erreur lors de la création de la page." ∉
        (create_nash_page { notion_token := some t, notion_database_id := some d } resp
          ti so td ca st co).1) := by
  rw [create_good t d ht hd resp ti so td ca st co]
  constructor
  · intro hnot
    refine ⟨?_, ?_, ?_, ?_⟩
    · simp [response_branch, hnot]
    · simp [response_branch, hnot]
    · intro j hj
      simp [response_branch, hnot, hj]
    · intro hj
      simp [response_branch, hnot, hj]
  · intro h2
    cases hb : resp.jsonBody with
    | none => simp [response_branch, h2, hb]
    | some data => cases data <;> simp [response_branch, h2, hb]

/-- C6 witness: the error path at a concrete 401 response with a JSON
error body. -/
theorem C6_witness :
    ¬(200 ≤ resp401.status_code ∧ resp401.status_code < 300) ∧
    (create_nash_page { notion_token := some "tok", notion_database_id := some "db" } resp401
        Json.null Json.null Json.null Json.null Json.null Json.null).2 =
      CreateOutcome.exit 1 := by
  have h := ( C6_theorem "tok" "db" resp401 Json.null Json.null Json.null Json.null Json.null
      Json.null (by decide) (by decide)).1 (by decide)
  exact ⟨by decide, h.1⟩

/-- C7 counterexample: a 2xx response whose body is valid JSON but a
JSON array (not an object) makes data.get raise an unhandled
AttributeError instead of returning the parsed response and exiting 0,
so the claim fails for this JSON body. -/
theorem C7_counterexample :
    (create_nash_page goodEnv
        { status_code := 200, jsonBody := some (Json.arr []), text := "corps" }
        Json.null Json.null Json.null Json.null Json.null Json.null).2 =
      CreateOutcome.exception "AttributeError" ∧
    (run_main ["nash_executor.py", "\x7b\x7d"] wArrBody).2 =
      Outcome.exception "AttributeError" ∧
    (run_main ["nash_executor.py", "\x7b\x7d"] wArrBody).2 ≠ Outcome.exit 0 := by
  refine ⟨rfl, rfl, ?_⟩
  rw [show (run_main ["nash_executor.py", "\x7b\x7d"] wArrBody).2 =
        Outcome.exception "AttributeError" from rfl]
  simp

/-- C7 (amended): with a well-formed configuration, every 2xx response
whose body is a JSON object is parsed, its id (defaulting to the literal
"inconnu" when absent) is printed in the confirmation, the parsed object
is returned to the caller, and the whole run exits 0. -/
theorem C7_amended_theorem (t d text : String) (status : Nat)
    (kvs : List (String × Json)) (ti so td ca st co : Json)
    (ht : t ≠ "") (hd : d ≠ "") (h2 : 200 ≤ status ∧ status < 300) :
    (create_nash_page { notion_token := some t, notion_database_id := some d }
        { status_code := status, jsonBody := some (Json.obj kvs), text := text }
        ti so td ca st co).2 = CreateOutcome.returns (Json.obj kvs) ∧
    Event.printSuccess ((dictGet kvs "id").getD (Json.str "inconnu")) ∈
      (create_nash_page { notion_token := some t, notion_database_id := some d }
        { status_code := status, jsonBody := some (Json.obj kvs), text := text }
        ti so td ca st co).1 ∧
    (∀ (w : World) (p a : String) (dkvs : List (String × Json)),
      w.parse a = some (Json.obj dkvs) →
      w.env = { notion_token := some t, notion_database_id := some d } →
      w.resp = { status_code := status, jsonBody := some (Json.obj kvs), text := text } →
      (run_main [p, a] w).2 = Outcome.exit 0) := by
  rw [create_good t d ht hd]
  refine ⟨?_, ?_, ?_⟩
  · simp [response_branch, h2]
  · simp [response_branch, h2]
  · intro w p a dkvs hp henv hresp
    have hlen : ([p, a] : List String).length = 2 := rfl
    have harg : ([p, a] : List String).getD 1 "" = a := rfl
    unfold run_main
    rw [if_pos hlen, harg, hp]
    dsimp only
    rw [henv, hresp, create_good t d ht hd]
    simp [response_branch, h2, createToOutcome]

/-- C7 witness: the amended statement at a concrete 201 response whose
object body carries an id. -/
theorem C7_witness :
    (200 ≤ 201 ∧ 201 < 300) ∧
    (run_main ["nash_executor.py", "\x7b\x7d"] wOkBody).2 = Outcome.exit 0 :=
  ⟨by decide,
   ( C7_amended_theorem "tok" "db" "" 201 [("id", Json.str "abc")]
      Json.null Json.null Json.null Json.null Json.null Json.null
      (by decide) (by decide) (by decide)).2.2
     wOkBody "nash_executor.py" "\x7b\x7d" [] rfl rfl rfl⟩

/-- C8: with no argument the run is the interactive flow, and for every
sequence of answers each one is stripped of surrounding whitespace; an
answer empty after stripping yields the placeholder for the title and
None for the five optional fields, and a non-empty stripped answer is
passed through unchanged. -/
theorem C8_theorem (w : World) (p : String) :
    run_main [p] w = interactive_main w ∧
    (pyStrip (w.inputs 0) = "" → (interactive_fields w.inputs).title = Json.str "Sans titre") ∧
    (pyStrip (w.inputs 0) ≠ "" →
      (interactive_fields w.inputs).title = Json.str (pyStrip (w.inputs 0))) ∧
    (pyStrip (w.inputs 1) = "" → (interactive_fields w.inputs).source = Json.null) ∧
    (pyStrip (w.inputs 1) ≠ "" →
      (interactive_fields w.inputs).source = Json.str (pyStrip (w.inputs 1))) ∧
    (pyStrip (w.inputs 2) = "" → (interactive_fields w.inputs).type_detected = Json.null) ∧
    (pyStrip (w.inputs 2) ≠ "" →
      (interactive_fields w.inputs).type_detected = Json.str (pyStrip (w.inputs 2))) ∧
    (pyStrip (w.inputs 3) = "" → (interactive_fields w.inputs).categorie = Json.null) ∧
    (pyStrip (w.inputs 3) ≠ "" →
      (interactive_fields w.inputs).categorie = Json.str (pyStrip (w.inputs 3))) ∧
    (pyStrip (w.inputs 4) = "" → (interactive_fields w.inputs).statut = Json.null) ∧
    (pyStrip (w.inputs 4) ≠ "" →
      (interactive_fields w.inputs).statut = Json.str (pyStrip (w.inputs 4))) ∧
    (pyStrip (w.inputs 5) = "" → (interactive_fields w.inputs).contenu = Json.null) ∧
    (pyStrip (w.inputs 5) ≠ "" →
      (interactive_fields w.inputs).contenu = Json.str (pyStrip (w.inputs 5))) := by
  refine ⟨?_, ?_, ?_, ?_, ?_, ?_, ?_, ?_, ?_, ?_, ?_, ?_, ?_⟩
  · unfold run_main
    rw [if_neg (by simp)]
  all_goals intro h
  all_goals simp [interactive_fields, h]

/-- C9: two or more positional arguments (len(sys.argv) at least 3) do
not report a usage error and do not select JSON-argument mode: the run
is exactly the interactive flow, ignoring every supplied argument, and
its first output line is the interactive banner. -/
theorem C9_theorem (argv : List String) (w : World) (h : 3 ≤ argv.length) :
    run_main argv w = interactive_main w ∧
    (run_main argv w).1.head? = some (Event.printLine interactiveBanner) := by
  have hne : ¬(argv.length = 2) := by omega
  have hmain : run_main argv w = interactive_main w := by
    unfold run_main
    rw [if_neg hne]
  refine ⟨hmain, ?_⟩
  rw [hmain]
  rfl

/-- C9 witness: a concrete three-element argument vector. -/
theorem C9_witness :
    3 ≤ (["nash_executor.py", "a", "b"] : List String).length ∧
    run_main ["nash_executor.py", "a", "b"] wBadJson = interactive_main wBadJson :=
  ⟨by decide, ( C9_theorem ["nash_executor.py", "a", "b"] wBadJson (by decide)).1⟩

/-- C10: an argument that parses as JSON but not as an object makes the
field-extraction step raise an unhandled AttributeError with nothing
printed: the JSON-decode error branch is not taken (no usage example, no
exit 1) and no network call happens. -/
theorem C10_theorem (w : World) (p a : String) (j : Json)
    (hp : w.parse a = some j) (hobj : ∀ kvs, j ≠ Json.obj kvs) :
    run_main [p, a] w = ([], Outcome.exception "AttributeError") ∧
    (run_main [p, a] w).2 ≠ Outcome.exit 1 ∧
    hasPost (run_main [p, a] w).1 = false := by
  have hlen : ([p, a] : List String).length = 2 := rfl
  have harg : ([p, a] : List String).getD 1 "" = a := rfl
  have hmain : run_main [p, a] w = ([], Outcome.exception "AttributeError") := by
    unfold run_main
    rw [if_pos hlen, harg, hp]
    cases j with
    | obj kvs => exact absurd rfl (hobj kvs)
    | null => rfl
    | bool b => rfl
    | num n => rfl
    | str s => rfl
    | arr xs => rfl
  refine ⟨hmain, ?_, ?_⟩
  · rw [hmain]
    simp
  · rw [hmain]
    rfl

/-- C10 witness: the JSON number 42 as argument. -/
theorem C10_witness :
    wNumArg.parse "42" = some (Json.num 42) ∧
    run_main ["nash_executor.py", "42"] wNumArg = ([], Outcome.exception "AttributeError") :=
  ⟨rfl, (C10_theorem wNumArg "nash_executor.py" "42" (Json.num 42) rfl
      (fun _ h => Json.noConfusion h)).1⟩

end NashExecutor
